import Mathlib

/-!
# Verification of the KYVE token-swapper orchestrator

A shallow embedding of the swap bot's core components, translated from the
TypeScript source:

* `src/services/swapOrchestrator.ts` — `SwapOrchestrator.executeSwap`
* `src/services/skipClient.ts` — `SkipSwapService.getRoute` / `executeSwap`
* `src/services/priceService.ts` — `PriceService` with its read-time cache
* `src/services/transactionLogger.ts` — `TransactionLogger` queries and export

Numeric values (JS numbers, stringified amounts) are modelled as rationals;
`Math.floor` becomes the integer floor, `Math.pow(10, 6)` the literal
1000000.  External collaborators (balance reader, price feed, Skip route
and execution backend, file system) are supplied through an `Env` record
describing the outcome of each external call in one orchestration cycle;
the orchestrator itself is a pure state-transition function.
-/

namespace TokenSwapper

/-- Lifecycle status of a swap record (`types/index.ts`, field `status`). -/
inductive TxStatus
  | pending
  | completed
  | failed
deriving DecidableEq, Repr

/-- One tracked on-chain transaction, as accumulated in the
`chainTransactions` array of `SkipSwapService.executeSwap`. -/
structure ChainTx where
  chainId : String
  txHash : String
  status : String
  timestamp : String
deriving DecidableEq, Repr

/-- The `SwapTransaction` record of `types/index.ts`, with numeric fields as
rationals and the optional `chainTransactions` array modelled as a list
(absent ≡ empty: every reader guards with `&& length > 0`). -/
structure SwapTransaction where
  id : String
  timestamp : String
  fromToken : String
  toToken : String
  fromAmount : ℚ
  toAmount : ℚ
  fromChainId : String
  toChainId : String
  kyvePrice : ℚ
  usdcPrice : ℚ
  costBasisUSD : ℚ
  gasFeesUSD : ℚ
  effectiveRate : ℚ
  txHash : String
  status : TxStatus
  error : Option String
  chainTransactions : List ChainTx
deriving DecidableEq, Repr

/-- The swap policy configuration (`swapConfig` in `config/index.ts`),
restricted to the fields `SwapOrchestrator.executeSwap` reads.
`keepReserve` is the parsed value of the configured string, in whole KYVE. -/
structure SwapConfigM where
  minSwapAmountUSD : ℚ
  maxSwapAmountUSD : ℚ
  swapPercentage : ℚ
  keepReserve : ℚ
  minEffectiveRate : ℚ
  dryRun : Bool
  sourceChainId : String
  destChainId : String
  timeoutMinutes : ℚ
deriving Repr

/-! ## Sizing (`swapOrchestrator.ts` lines 72–96) -/

/-- `minAmountMicro = (swapConfig.minSwapAmountUSD / kyvePrice) * 10^6`. -/
def minAmountMicro (cfg : SwapConfigM) (kyvePrice : ℚ) : ℚ :=
  cfg.minSwapAmountUSD / kyvePrice * 1000000

/-- `maxAmountMicro = (swapConfig.maxSwapAmountUSD / kyvePrice) * 10^6`. -/
def maxAmountMicro (cfg : SwapConfigM) (kyvePrice : ℚ) : ℚ :=
  cfg.maxSwapAmountUSD / kyvePrice * 1000000

/-- `keepReserveMicro = parseFloat(swapConfig.keepReserve) * 10^6`. -/
def keepReserveMicro (cfg : SwapConfigM) : ℚ :=
  cfg.keepReserve * 1000000

/-- The sized trade amount: starts from the raw balance, applies the
percentage rule when `swapPercentage < 100`, overrides with the reserve rule
(computed from the raw balance) when `keepReserveMicro > 0`, then caps at
`maxAmountMicro` (lines 77–90). -/
def computeSwapAmount (cfg : SwapConfigM) (balanceFloat kyvePrice : ℚ) : ℚ :=
  let afterPct : ℚ :=
    if cfg.swapPercentage < 100 then
      ((⌊balanceFloat * (cfg.swapPercentage / 100)⌋ : ℤ) : ℚ)
    else balanceFloat
  let afterReserve : ℚ :=
    if keepReserveMicro cfg > 0 then
      max 0 (balanceFloat - keepReserveMicro cfg)
    else afterPct
  min afterReserve (maxAmountMicro cfg kyvePrice)

/-! ## Price service (`priceService.ts`)

The CoinGecko/CoinPaprika network layer is abstracted to an
`Option ℚ` fetch outcome (`none` = the fetch failed, threw, or returned no
price — all caught and turned into `null` by `getPrice`).  The read-time
cache with lazy expiry is modelled faithfully. -/

/-- One cache slot (`PriceCache` entry in `priceService.ts`). -/
structure CacheEntry where
  price : ℚ
  timestamp : ℤ
deriving DecidableEq, Repr

/-- The mutable state of a `PriceService` instance. -/
structure PriceState where
  cache : String → Option CacheEntry
  cacheDuration : ℤ

/-- Point update of the cache map. -/
def updateCache (c : String → Option CacheEntry) (k : String)
    (v : Option CacheEntry) : String → Option CacheEntry :=
  fun s => if s = k then v else c s

/-- `getCachedPrice`: look up the symbol's cache slot; delete and miss when
the entry is older than `cacheDuration` (strict `>` as in the source).  The
source keys the cache by `symbol.toLowerCase()`; every symbol the
orchestrator passes (`'kyve'`, `'usdc'`) is already lowercase, so the
lowercasing is the identity at all embedded call sites and is omitted. -/
def getCachedPrice (st : PriceState) (now : ℤ) (sym : String) :
    Option ℚ × PriceState :=
  match st.cache sym with
  | none => (none, st)
  | some e =>
      if now - e.timestamp > st.cacheDuration then
        (none, { st with cache := updateCache st.cache sym none })
      else (some e.price, st)

/-- `cachePrice`: store a freshly fetched price at the current time. -/
def cachePrice (st : PriceState) (now : ℤ) (sym : String) (p : ℚ) : PriceState :=
  { st with cache := updateCache st.cache sym (some ⟨p, now⟩) }

/-- `getPrice`: cached value if present and fresh, otherwise the network
fetch outcome, cached on success; `none` when the fetch fails. -/
def getPriceM (st : PriceState) (now : ℤ) (sym : String) (fetch : Option ℚ) :
    Option ℚ × PriceState :=
  let c := getCachedPrice st now sym
  match c.1 with
  | some p => (some p, c.2)
  | none =>
      match fetch with
      | some p => (some p, cachePrice c.2 now sym p)
      | none => (none, c.2)

/-- `getPrices(['kyve', 'usdc'])` — two `getPrice` calls on distinct symbol
keys (concurrent in the source, independent since the keys differ). -/
def getPricesM (st : PriceState) (now : ℤ) (kyveFetch usdcFetch : Option ℚ) :
    (Option ℚ × Option ℚ) × PriceState :=
  let k := getPriceM st now "kyve" kyveFetch
  let u := getPriceM k.2 now "usdc" usdcFetch
  ((k.1, u.1), u.2)

/-- `calculateCostBasis(amount, 'kyve')` with the default 6 decimals:
re-reads the price through `getPrice` and returns
`(amount / 10^6) * price`, or 0 if no price is available. -/
def calculateCostBasis (st : PriceState) (now : ℤ) (amount : ℚ)
    (fetch : Option ℚ) : ℚ × PriceState :=
  match getPriceM st now "kyve" fetch with
  | (none, st') => (0, st')
  | (some p, st') => (amount / 1000000 * p, st')

/-! ## Skip service (`skipClient.ts`) -/

/-- The parts of a Skip route the orchestrator inspects: `amountIn`,
`amountOut` (quoted estimate, a string in the source) and the length of the
`operations` array.  The rest of the payload is opaque and passed through. -/
structure Route where
  amountIn : ℚ
  amountOut : ℚ
  operationsCount : ℕ
deriving DecidableEq, Repr

/-- `SkipSwapService.getRoute`: the backend's response is `none` when the
call returned no route (or threw); a present route with an empty
`operations` array is also rejected with `No route found for swap`. -/
def getRouteM (resp : Option Route) : Except String Route :=
  match resp with
  | none => Except.error "No route found for swap"
  | some r =>
      if r.operationsCount = 0 then Except.error "No route found for swap"
      else Except.ok r

/-- One lifecycle event emitted by `skipClient.executeRoute` to the
callbacks registered in `SkipSwapService.executeSwap`. -/
inductive ExecEvent
  | broadcast (chainId txHash timestamp : String)
  | completed (chainId txHash timestamp : String)
  | tracked (toAmount : Option ℚ)
deriving DecidableEq, Repr

/-- The in-place status update performed by `onTransactionCompleted` when a
matching `(chainId, txHash)` entry already exists: the first match (the one
`find` returns) has its `status` field overwritten. -/
def markCompleted : List ChainTx → String → String → List ChainTx
  | [], _, _ => []
  | tx :: rest, c, h =>
      if tx.chainId = c ∧ tx.txHash = h then
        { tx with status := "completed" } :: rest
      else tx :: markCompleted rest c h

/-- Accumulator of the `chainTransactions` array and the
`actualAmountOut` variable inside `SkipSwapService.executeSwap`. -/
structure ExecAccum where
  legs : List ChainTx
  actualAmountOut : Option ℚ
deriving DecidableEq, Repr

/-- Effect of one lifecycle event on the accumulator:
`onTransactionBroadcast` appends a `broadcast` entry;
`onTransactionCompleted` updates a matching entry in place or appends a
`completed` entry; `onTransactionTracked` captures a settled amount when one
is reported. -/
def applyEvent (acc : ExecAccum) : ExecEvent → ExecAccum
  | ExecEvent.broadcast c h t =>
      { acc with legs := acc.legs ++ [⟨c, h, "broadcast", t⟩] }
  | ExecEvent.completed c h t =>
      if acc.legs.any (fun tx => tx.chainId = c ∧ tx.txHash = h) then
        { acc with legs := markCompleted acc.legs c h }
      else { acc with legs := acc.legs ++ [⟨c, h, "completed", t⟩] }
  | ExecEvent.tracked a =>
      match a with
      | some x => { acc with actualAmountOut := some x }
      | none => acc

/-- Fold a cycle's event stream into the final accumulator. -/
def runEvents (evs : List ExecEvent) : ExecAccum :=
  evs.foldl applyEvent ⟨[], none⟩

/-- How one execution attempt ends, as seen by the `Promise.race` of
`executePromise` against `timeoutPromise`:
the driver resolves first (having emitted `events`), the timeout fires first
(the events observed so far live only in the local closure and are lost when
the race rejects), or the driver itself rejects. -/
inductive ExecOutcome
  | resolves (events : List ExecEvent)
  | timesOut (eventsObserved : List ExecEvent)
  | fails (msg : String)
deriving Repr

/-- The object `SkipSwapService.executeSwap` returns on success.  The
non-dry-run branch returns no top-level `txHash` field (`none` here). -/
structure ExecResult where
  success : Bool
  txHash : Option String
  amountOut : Option ℚ
  chainTransactions : List ChainTx
deriving DecidableEq, Repr

/-- `SkipSwapService.executeSwap`: a dry run short-circuits with a synthetic
success (`txHash = "DRY_RUN_TX"`, `amountOut` = the quoted estimate, empty
`chainTransactions`); otherwise the race either yields the accumulated legs
and the settled amount (falling back to the quote), or throws — a timeout
throws the timeout `Error`, whose message is all that escapes the closure. -/
def skipExecuteSwap (timeoutMinutes : ℚ) (route : Route) (dryRun : Bool)
    (outcome : ExecOutcome) : Except String ExecResult :=
  if dryRun then
    Except.ok ⟨true, some "DRY_RUN_TX", some route.amountOut, []⟩
  else
    match outcome with
    | ExecOutcome.resolves evs =>
        let acc := runEvents evs
        Except.ok ⟨true, none, some (acc.actualAmountOut.getD route.amountOut),
                   acc.legs⟩
    | ExecOutcome.timesOut _ =>
        Except.error ("Swap execution timed out after " ++
          toString timeoutMinutes ++ " minutes")
    | ExecOutcome.fails msg => Except.error msg

/-! ## Transaction logger (`transactionLogger.ts`) -/

/-- `getTransactions()` — the full in-memory history. -/
def getTransactions (l : List SwapTransaction) : List SwapTransaction := l

/-- `getSuccessfulTransactions()` — records with `status === 'completed'`. -/
def getSuccessfulTransactions (l : List SwapTransaction) :
    List SwapTransaction :=
  l.filter (fun tx => tx.status = TxStatus.completed)

/-- `getTotalVolumeUSD()` — `reduce((sum, tx) => sum + tx.costBasisUSD, 0)`
over the completed records. -/
def getTotalVolumeUSD (l : List SwapTransaction) : ℚ :=
  (getSuccessfulTransactions l).foldl (fun sum tx => sum + tx.costBasisUSD) 0

/-- `getAverageRate()` — arithmetic mean of `effectiveRate` over completed
records, 0 when there are none. -/
def getAverageRate (l : List SwapTransaction) : ℚ :=
  let succ := getSuccessfulTransactions l
  if succ.length = 0 then 0
  else (succ.foldl (fun sum tx => sum + tx.effectiveRate) 0) / succ.length

/-- One row of the accounting export produced by `exportToCSV` (string
formatting such as `toFixed` is presentation; the underlying values are
kept).  `chainTransactions` is the list of `chainId:txHash` references, or
the primary hash when no legs were tracked. -/
structure ExportRow where
  date : String
  sentAmount : ℚ
  sentCurrency : String
  receivedAmount : ℚ
  receivedCurrency : String
  feeAmount : ℚ
  netWorthAmount : ℚ
  label : String
  txHash : String
  chainTransactions : List String
deriving DecidableEq, Repr

/-- The projection of one completed record into an accounting row
(`exportToCSV`, the `.map` body). -/
def mkExportRow (tx : SwapTransaction) : ExportRow :=
  { date := tx.timestamp
    sentAmount := tx.fromAmount / 1000000
    sentCurrency := tx.fromToken
    receivedAmount := tx.toAmount / 1000000
    receivedCurrency := tx.toToken
    feeAmount := tx.gasFeesUSD
    netWorthAmount := tx.costBasisUSD
    label := "Crypto Swap"
    txHash := tx.txHash
    chainTransactions :=
      match tx.chainTransactions with
      | [] => [tx.txHash]
      | legs =>
          (legs.filter (fun c => ¬ c.txHash = "")).map
            (fun c => c.chainId ++ ":" ++ c.txHash) }

/-- `exportToCSV`: filter to `status === 'completed'`, then project each
record into a row. -/
def exportRecords (l : List SwapTransaction) : List ExportRow :=
  (l.filter (fun tx => tx.status = TxStatus.completed)).map mkExportRow

/-! ## Orchestrator (`swapOrchestrator.ts`) -/

/-- The outcomes of one cycle's external calls: the balance read (`none` =
`null`), the network outcomes behind the three `getPrice` reads (sizing
kyve, sizing usdc, cost-basis kyve — each used only on a cache miss), the
route response, the execution outcome, whether the ledger's file write
succeeds, the generated id / start timestamp, and the two `Date.now()`
instants the price service observes: `now` at the Sizing-phase
`getPrices(['kyve','usdc'])` and `now2` at the `calculateCostBasis`
re-read.  The source reads the clock afresh at each cache check, so the
two instants are distinct and `now2 - now` is unconstrained — the cached
Sizing price can expire between them. -/
structure Env where
  balance : Option ℚ
  kyveFetch : Option ℚ
  usdcFetch : Option ℚ
  kyveFetch2 : Option ℚ
  routeResponse : Option Route
  execOutcome : ExecOutcome
  saveOk : Bool
  txId : String
  startTime : String
  now : ℤ
  now2 : ℤ

/-- Observable state of the orchestrator and its collaborators: the
single-flight flag, the logger's in-memory ledger, the last durably written
ledger contents (`transactions.json`), the notifications sent so far, call
counters for the quote and execute collaborators, and the price cache. -/
structure OrchState where
  isRunning : Bool
  ledger : List SwapTransaction
  savedFile : Option (List SwapTransaction)
  notifications : List (String × String)
  quoteCalls : ℕ
  executeCalls : ℕ
  priceState : PriceState

/-- `NotificationService.sendNotification` — best effort, recorded as a
(level, message) pair; delivery failures never surface. -/
def notifyM (s : OrchState) (level msg : String) : OrchState :=
  { s with notifications := s.notifications ++ [(level, msg)] }

/-- `TransactionLogger.saveTransactions`: writes the whole ledger to the
JSON file; a write failure is caught inside and only logged, so the caller
never observes it. -/
def saveTransactionsM (saveOk : Bool) (s : OrchState) : OrchState :=
  if saveOk then { s with savedFile := some s.ledger } else s

/-- `TransactionLogger.logTransaction`: push onto the in-memory list, then
attempt the durable write (failure swallowed). -/
def logTransactionM (saveOk : Bool) (s : OrchState)
    (tx : SwapTransaction) : OrchState :=
  saveTransactionsM saveOk { s with ledger := s.ledger ++ [tx] }

/-- The `catch` block of `SwapOrchestrator.executeSwap` (lines 198–229):
the failure record is built from scratch with zero amounts and prices, no
chain transactions, and the thrown error's message. -/
def failedTx (cfg : SwapConfigM) (env : Env) (msg : String) :
    SwapTransaction :=
  { id := env.txId
    timestamp := env.startTime
    fromToken := "KYVE"
    toToken := "USDC"
    fromAmount := 0
    toAmount := 0
    fromChainId := cfg.sourceChainId
    toChainId := cfg.destChainId
    kyvePrice := 0
    usdcPrice := 0
    costBasisUSD := 0
    gasFeesUSD := 0
    effectiveRate := 0
    txHash := ""
    status := TxStatus.failed
    error := some msg
    chainTransactions := [] }

/-- The `try` body of `SwapOrchestrator.executeSwap` (lines 50–197).
`Except.error` carries a thrown error's message together with the state at
the throw point; `Except.ok` carries the returned value and final state. -/
def executeSwapBody (cfg : SwapConfigM) (env : Env) (s : OrchState) :
    Except (String × OrchState) (Option SwapTransaction × OrchState) :=
  match env.balance with
  | none =>
      Except.ok (none, notifyM s "warning" "No KYVE balance available for swap")
  | some bal =>
    if bal = 0 then
      Except.ok (none, notifyM s "warning" "No KYVE balance available for swap")
    else
      let pr := getPricesM s.priceState env.now env.kyveFetch env.usdcFetch
      let s1 := { s with priceState := pr.2 }
      let kyvePrice := (pr.1.1).getD 0
      if kyvePrice = 0 then
        Except.ok (none, s1)
      else
        let swapAmount := computeSwapAmount cfg bal kyvePrice
        if swapAmount < minAmountMicro cfg kyvePrice then
          Except.ok (none, s1)
        else
          let usdcPrice := (pr.1.2).getD 1
          let cb := calculateCostBasis s1.priceState env.now2 swapAmount
            env.kyveFetch2
          let costBasisUSD := cb.1
          let s2 := { s1 with priceState := cb.2 }
          let s3 := { s2 with quoteCalls := s2.quoteCalls + 1 }
          match getRouteM env.routeResponse with
          | Except.error msg => Except.error (msg, s3)
          | Except.ok route =>
            let effectiveRate := route.amountOut / swapAmount
            if effectiveRate < cfg.minEffectiveRate then
              Except.ok (none,
                notifyM s3 "warning" "Swap cancelled: Rate too low")
            else
              let s4 := { s3 with executeCalls := s3.executeCalls + 1 }
              match skipExecuteSwap cfg.timeoutMinutes route cfg.dryRun
                  env.execOutcome with
              | Except.error msg => Except.error (msg, s4)
              | Except.ok result =>
                let primaryTxHash :=
                  match result.chainTransactions with
                  | [] => result.txHash.getD "PENDING"
                  | t :: _ => t.txHash
                let toAmount := result.amountOut.getD route.amountOut
                let tx : SwapTransaction :=
                  { id := env.txId
                    timestamp := env.startTime
                    fromToken := "KYVE"
                    toToken := "USDC"
                    fromAmount := swapAmount
                    toAmount := toAmount
                    fromChainId := cfg.sourceChainId
                    toChainId := cfg.destChainId
                    kyvePrice := kyvePrice
                    usdcPrice := usdcPrice
                    costBasisUSD := costBasisUSD
                    gasFeesUSD := 0
                    effectiveRate := toAmount / swapAmount
                    txHash := primaryTxHash
                    status :=
                      if result.success then TxStatus.completed
                      else TxStatus.failed
                    error := none
                    chainTransactions := result.chainTransactions }
                let s5 := logTransactionM env.saveOk s4 tx
                let s6 := notifyM s5 "success" "Swap completed"
                Except.ok (some tx, s6)

/-- `SwapOrchestrator.executeSwap`: the single-flight guard returns `null`
while a cycle is running; otherwise the body runs with the flag set, a
thrown error is caught (failure record appended, error notified, record
returned), and the `finally` clears the flag on every path. -/
def executeSwap (cfg : SwapConfigM) (env : Env) (s : OrchState) :
    Option SwapTransaction × OrchState :=
  if s.isRunning then (none, s)
  else
    let s0 := { s with isRunning := true }
    match executeSwapBody cfg env s0 with
    | Except.ok (r, s') => (r, { s' with isRunning := false })
    | Except.error (msg, s') =>
        let tx := failedTx cfg env msg
        let s1 := logTransactionM env.saveOk s' tx
        let s2 := notifyM s1 "error" ("Swap failed: " ++ msg)
        (some tx, { s2 with isRunning := false })

/-! ## Projection lemmas for the orchestrator state helpers -/

@[simp] lemma notifyM_ledger (s : OrchState) (l m : String) :
    (notifyM s l m).ledger = s.ledger := rfl

@[simp] lemma notifyM_savedFile (s : OrchState) (l m : String) :
    (notifyM s l m).savedFile = s.savedFile := rfl

@[simp] lemma notifyM_notifications (s : OrchState) (l m : String) :
    (notifyM s l m).notifications = s.notifications ++ [(l, m)] := rfl

@[simp] lemma notifyM_quoteCalls (s : OrchState) (l m : String) :
    (notifyM s l m).quoteCalls = s.quoteCalls := rfl

@[simp] lemma notifyM_executeCalls (s : OrchState) (l m : String) :
    (notifyM s l m).executeCalls = s.executeCalls := rfl

@[simp] lemma notifyM_isRunning (s : OrchState) (l m : String) :
    (notifyM s l m).isRunning = s.isRunning := rfl

@[simp] lemma saveTransactionsM_ledger (ok : Bool) (s : OrchState) :
    (saveTransactionsM ok s).ledger = s.ledger := by
  unfold saveTransactionsM; split <;> rfl

@[simp] lemma saveTransactionsM_notifications (ok : Bool) (s : OrchState) :
    (saveTransactionsM ok s).notifications = s.notifications := by
  unfold saveTransactionsM; split <;> rfl

@[simp] lemma saveTransactionsM_quoteCalls (ok : Bool) (s : OrchState) :
    (saveTransactionsM ok s).quoteCalls = s.quoteCalls := by
  unfold saveTransactionsM; split <;> rfl

@[simp] lemma saveTransactionsM_executeCalls (ok : Bool) (s : OrchState) :
    (saveTransactionsM ok s).executeCalls = s.executeCalls := by
  unfold saveTransactionsM; split <;> rfl

@[simp] lemma saveTransactionsM_isRunning (ok : Bool) (s : OrchState) :
    (saveTransactionsM ok s).isRunning = s.isRunning := by
  unfold saveTransactionsM; split <;> rfl

lemma saveTransactionsM_savedFile_false (s : OrchState) :
    (saveTransactionsM false s).savedFile = s.savedFile := rfl

@[simp] lemma logTransactionM_ledger (ok : Bool) (s : OrchState)
    (tx : SwapTransaction) :
    (logTransactionM ok s tx).ledger = s.ledger ++ [tx] := by
  unfold logTransactionM; simp

@[simp] lemma logTransactionM_notifications (ok : Bool) (s : OrchState)
    (tx : SwapTransaction) :
    (logTransactionM ok s tx).notifications = s.notifications := by
  unfold logTransactionM; simp

@[simp] lemma logTransactionM_quoteCalls (ok : Bool) (s : OrchState)
    (tx : SwapTransaction) :
    (logTransactionM ok s tx).quoteCalls = s.quoteCalls := by
  unfold logTransactionM; simp

@[simp] lemma logTransactionM_executeCalls (ok : Bool) (s : OrchState)
    (tx : SwapTransaction) :
    (logTransactionM ok s tx).executeCalls = s.executeCalls := by
  unfold logTransactionM; simp

@[simp] lemma logTransactionM_isRunning (ok : Bool) (s : OrchState)
    (tx : SwapTransaction) :
    (logTransactionM ok s tx).isRunning = s.isRunning := by
  unfold logTransactionM; simp

lemma logTransactionM_savedFile_false (s : OrchState) (tx : SwapTransaction) :
    (logTransactionM false s tx).savedFile = s.savedFile := rfl

/-! ## Helper lemmas about the price cache -/

/-- Equation: cache miss (no slot). -/
lemma getCachedPrice_none (st : PriceState) (now : ℤ) (sym : String)
    (hc : st.cache sym = none) :
    getCachedPrice st now sym = (none, st) := by
  unfold getCachedPrice; rw [hc]

/-- Equation: cache slot present but expired — evicted, miss. -/
lemma getCachedPrice_expired (st : PriceState) (now : ℤ) (sym : String)
    (e : CacheEntry) (hc : st.cache sym = some e)
    (h : now - e.timestamp > st.cacheDuration) :
    getCachedPrice st now sym =
      (none, { st with cache := updateCache st.cache sym none }) := by
  unfold getCachedPrice; rw [hc]; simp [h]

/-- Equation: cache slot present and fresh — hit, state unchanged. -/
lemma getCachedPrice_hit (st : PriceState) (now : ℤ) (sym : String)
    (e : CacheEntry) (hc : st.cache sym = some e)
    (h : ¬ now - e.timestamp > st.cacheDuration) :
    getCachedPrice st now sym = (some e.price, st) := by
  unfold getCachedPrice; rw [hc]; simp [h]

/-- `getCachedPrice` never changes the configured cache duration. -/
lemma getCachedPrice_duration (st : PriceState) (now : ℤ) (sym : String) :
    ((getCachedPrice st now sym).2).cacheDuration = st.cacheDuration := by
  unfold getCachedPrice
  cases h : st.cache sym with
  | none => rfl
  | some e => dsimp only; split <;> rfl

/-- `getCachedPrice` touches no cache key other than the one it reads. -/
lemma getCachedPrice_cache_other (st : PriceState) (now : ℤ) (sym k : String)
    (hk : k ≠ sym) :
    ((getCachedPrice st now sym).2).cache k = st.cache k := by
  unfold getCachedPrice
  cases h : st.cache sym with
  | none => rfl
  | some e =>
    dsimp only
    split
    · simp [updateCache, hk]
    · rfl

/-- `getPriceM` never changes the configured cache duration. -/
lemma getPriceM_duration (st : PriceState) (now : ℤ) (sym : String)
    (f : Option ℚ) :
    ((getPriceM st now sym f).2).cacheDuration = st.cacheDuration := by
  rcases hgc : getCachedPrice st now sym with ⟨o, st2⟩
  have hd : st2.cacheDuration = st.cacheDuration := by
    have := getCachedPrice_duration st now sym
    rw [hgc] at this; exact this
  unfold getPriceM
  rw [hgc]
  cases o with
  | some p => exact hd
  | none => cases f with
    | some p => exact hd
    | none => exact hd

/-- `getPriceM` touches no cache key other than the one it reads/writes. -/
lemma getPriceM_cache_other (st : PriceState) (now : ℤ) (sym k : String)
    (f : Option ℚ) (hk : k ≠ sym) :
    ((getPriceM st now sym f).2).cache k = st.cache k := by
  rcases hgc : getCachedPrice st now sym with ⟨o, st2⟩
  have hother : st2.cache k = st.cache k := by
    have := getCachedPrice_cache_other st now sym k hk
    rw [hgc] at this; exact this
  unfold getPriceM
  rw [hgc]
  cases o with
  | some p => exact hother
  | none => cases f with
    | some p =>
        show (cachePrice st2 now sym p).cache k = st.cache k
        rw [← hother]
        simp [cachePrice, updateCache, hk]
    | none => exact hother

/-- If `getPriceM` returned a price and the cache window is nonnegative, the
resulting state holds a cache entry for the symbol with that price, still
fresh at the same instant. -/
lemma getPriceM_some_entry (st : PriceState) (now : ℤ) (sym : String)
    (f : Option ℚ) (p : ℚ) (hd : 0 ≤ st.cacheDuration)
    (h : (getPriceM st now sym f).1 = some p) :
    ∃ ts : ℤ, ((getPriceM st now sym f).2).cache sym =
        some ⟨p, ts⟩ ∧ now - ts ≤ st.cacheDuration := by
  unfold getPriceM at h ⊢
  cases hc : st.cache sym with
  | none =>
    rw [getCachedPrice_none st now sym hc] at h ⊢
    cases hf : f with
    | none => rw [hf] at h; simp at h
    | some q =>
      rw [hf] at h
      have hq : q = p := by simpa using h
      refine ⟨now, ?_, by omega⟩
      simp [cachePrice, updateCache, hq]
  | some e =>
    by_cases hfresh : now - e.timestamp > st.cacheDuration
    · rw [getCachedPrice_expired st now sym e hc hfresh] at h ⊢
      cases hf : f with
      | none => rw [hf] at h; simp at h
      | some q =>
        rw [hf] at h
        have hq : q = p := by simpa using h
        refine ⟨now, ?_, by omega⟩
        simp [cachePrice, updateCache, hq]
    · rw [getCachedPrice_hit st now sym e hc hfresh] at h ⊢
      have hq : e.price = p := by simpa using h
      refine ⟨e.timestamp, ?_, by omega⟩
      simp [hc, ← hq]

/-- A fresh cache entry is served as-is, with the state unchanged. -/
lemma getPriceM_hit (st : PriceState) (now : ℤ) (sym : String)
    (f : Option ℚ) (e : CacheEntry) (hc : st.cache sym = some e)
    (hfresh : ¬ now - e.timestamp > st.cacheDuration) :
    getPriceM st now sym f = (some e.price, st) := by
  unfold getPriceM
  rw [getCachedPrice_hit st now sym e hc hfresh]

/-- If the KYVE slot was empty when the sizing-phase
`getPrices(['kyve','usdc'])` ran at instant `t0` — so the returned price was
freshly fetched and cached with timestamp `t0` — and the cost-basis re-read
happens at instant `t1` no more than `cacheDuration` later, the re-read is
a cache hit returning the same price, independent of the network outcome
`f2` it would use on a miss.  (When `t1 - t0` exceeds the window the entry
is evicted instead and the price is re-fetched — see the C6
counterexample.) -/
lemma calculateCostBasis_after_prices (st : PriceState) (t0 t1 : ℤ)
    (kf uf f2 : Option ℚ) (p amt : ℚ)
    (hmiss : st.cache "kyve" = none)
    (hk : (getPricesM st t0 kf uf).1.1 = some p)
    (hwin : t1 - t0 ≤ st.cacheDuration) :
    calculateCostBasis (getPricesM st t0 kf uf).2 t1 amt f2 =
      (amt / 1000000 * p, (getPricesM st t0 kf uf).2) := by
  have hk' : (getPriceM st t0 "kyve" kf).1 = some p := hk
  have hkf : kf = some p := by
    unfold getPriceM at hk'
    rw [getCachedPrice_none st t0 "kyve" hmiss] at hk'
    cases hf : kf with
    | none => rw [hf] at hk'; simp at hk'
    | some q =>
        rw [hf] at hk'
        have hq : q = p := by simpa using hk'
        rw [hq]
  have hentry : ((getPriceM st t0 "kyve" kf).2).cache "kyve" =
      some ⟨p, t0⟩ := by
    unfold getPriceM
    rw [getCachedPrice_none st t0 "kyve" hmiss, hkf]
    simp [cachePrice, updateCache]
  have hne : ("kyve" : String) ≠ "usdc" := by decide
  have hentry2 : ((getPricesM st t0 kf uf).2).cache "kyve" =
      some ⟨p, t0⟩ := by
    show ((getPriceM (getPriceM st t0 "kyve" kf).2 t0 "usdc" uf).2).cache
        "kyve" = some ⟨p, t0⟩
    rw [getPriceM_cache_other _ t0 "usdc" _ uf hne]
    exact hentry
  have hdur : ((getPricesM st t0 kf uf).2).cacheDuration =
      st.cacheDuration := by
    show ((getPriceM (getPriceM st t0 "kyve" kf).2 t0 "usdc" uf).2).cacheDuration
        = st.cacheDuration
    rw [getPriceM_duration, getPriceM_duration]
  have hfresh2 : ¬ t1 - (⟨p, t0⟩ : CacheEntry).timestamp >
      ((getPricesM st t0 kf uf).2).cacheDuration := by
    rw [hdur]; dsimp only; omega
  unfold calculateCostBasis
  rw [getPriceM_hit _ t1 "kyve" f2 ⟨p, t0⟩ hentry2 hfresh2]

/-! ## List-level lemmas for the ledger queries -/

/-- Appending a completed record extends the completed-only view by it. -/
lemma getSuccessfulTransactions_append_completed (l : List SwapTransaction)
    (tx : SwapTransaction) (h : tx.status = TxStatus.completed) :
    getSuccessfulTransactions (l ++ [tx]) =
      getSuccessfulTransactions l ++ [tx] := by
  unfold getSuccessfulTransactions
  rw [List.filter_append]
  simp [h]

/-- Appending a completed record adds its cost basis to the total. -/
lemma getTotalVolumeUSD_append_completed (l : List SwapTransaction)
    (tx : SwapTransaction) (h : tx.status = TxStatus.completed) :
    getTotalVolumeUSD (l ++ [tx]) = getTotalVolumeUSD l + tx.costBasisUSD := by
  unfold getTotalVolumeUSD
  rw [getSuccessfulTransactions_append_completed l tx h, List.foldl_append]
  rfl

/-- Appending a completed record adds exactly its row to the export. -/
lemma exportRecords_append_completed (l : List SwapTransaction)
    (tx : SwapTransaction) (h : tx.status = TxStatus.completed) :
    exportRecords (l ++ [tx]) = exportRecords l ++ [mkExportRow tx] := by
  unfold exportRecords
  rw [List.filter_append, List.map_append]
  simp [h]

/-! ## Concrete fixture used by the witnesses -/

/-- An empty price cache with a 5-minute (300000 ms) window. -/
def emptyCache : PriceState := ⟨fun _ => none, 300000⟩

/-- A fresh orchestrator: idle, empty ledger, nothing notified. -/
def initState : OrchState := ⟨false, [], none, [], 0, 0, emptyCache⟩

/-- An orchestrator with a cycle already in flight. -/
def busyState : OrchState := ⟨true, [], none, [], 0, 0, emptyCache⟩

/-- A demo policy: $10–$1000 bounds, 100 %, no reserve, min rate 0.0001,
dry run. -/
def demoCfg : SwapConfigM := ⟨10, 1000, 100, 0, 1/10000, true, "kyve-1", "8453", 30⟩

/-- The demo policy with dry run off. -/
def demoCfgLive : SwapConfigM := ⟨10, 1000, 100, 0, 1/10000, false, "kyve-1", "8453", 30⟩

/-- A quoted route: 20 KYVE (micro) in, 2 USDC (micro) out, one operation. -/
def demoRoute : Route := ⟨20000000, 2000000, 1⟩

/-- A benign cycle environment: 20 KYVE (micro) balance, both prices fetch
at $1, a valid route, an immediately resolving execution, writes succeed. -/
def demoEnv : Env :=
  ⟨some 20000000, some 1, some 1, none, some demoRoute,
   ExecOutcome.resolves [], true, "tx-1", "2024-01-01T00:00:00Z", 0, 0⟩

/-- A completed ledger record, for the logger-level witnesses. -/
def demoCompletedTx : SwapTransaction :=
  { id := "a", timestamp := "2024-01-01T00:00:00Z", fromToken := "KYVE"
    toToken := "USDC", fromAmount := 20000000, toAmount := 2000000
    fromChainId := "kyve-1", toChainId := "8453", kyvePrice := 1
    usdcPrice := 1, costBasisUSD := 20, gasFeesUSD := 0
    effectiveRate := 1/10, txHash := "H1", status := TxStatus.completed
    error := none, chainTransactions := [] }

/-- A failed ledger record, for the logger-level witnesses. -/
def demoFailedTx : SwapTransaction :=
  { id := "b", timestamp := "2024-01-02T00:00:00Z", fromToken := "KYVE"
    toToken := "USDC", fromAmount := 0, toAmount := 0
    fromChainId := "kyve-1", toChainId := "8453", kyvePrice := 0
    usdcPrice := 0, costBasisUSD := 0, gasFeesUSD := 0
    effectiveRate := 0, txHash := "", status := TxStatus.failed
    error := some "boom", chainTransactions := [] }

/-- A three-record ledger: completed, failed, completed. -/
def demoLedger : List SwapTransaction :=
  [demoCompletedTx, demoFailedTx, demoCompletedTx]

/-! ## C3 — single-flight guard and busy-flag cleanup -/

/-- C3: a trigger arriving while a cycle is in progress (`isRunning` set) is
a no-op returning `null` — the state, including the ledger and the quote and
execute call counts, is untouched, so no second SwapRecord and no second
Quoting/Executing call can occur; and whenever a cycle actually starts
(`isRunning` clear), the flag is false again on every exit path — success,
skip, failure or caught exception — so the next trigger is not blocked. -/
theorem single_flight_noop_and_flag_clear (cfg : SwapConfigM) (env : Env)
    (s : OrchState) :
    (s.isRunning = true →
      executeSwap cfg env s = (none, s) ∧
      ((executeSwap cfg env s).2).ledger = s.ledger ∧
      ((executeSwap cfg env s).2).quoteCalls = s.quoteCalls ∧
      ((executeSwap cfg env s).2).executeCalls = s.executeCalls) ∧
    (s.isRunning = false → ((executeSwap cfg env s).2).isRunning = false) := by
  constructor
  · intro h
    simp [executeSwap, h]
  · intro h
    unfold executeSwap
    rw [h]
    simp only [Bool.false_eq_true, if_false]
    cases hb : executeSwapBody cfg env { s with isRunning := true } with
    | ok v => rcases v with ⟨r, s'⟩; rfl
    | error v => rcases v with ⟨msg, s'⟩; rfl

/-- C3 witness: the busy no-op and the flag cleanup at concrete inputs. -/
theorem single_flight_noop_and_flag_clear_witness :
    executeSwap demoCfg demoEnv busyState = (none, busyState) ∧
    ((executeSwap demoCfg demoEnv initState).2).isRunning = false :=
  ⟨((single_flight_noop_and_flag_clear demoCfg demoEnv busyState).1 rfl).1,
   (single_flight_noop_and_flag_clear demoCfg demoEnv initState).2 rfl⟩

/-! ## C8 — accounting export covers exactly the completed records -/

/-- C8: for a ledger with N records of which K are completed, the
accounting export has exactly K rows — one per completed record, none for a
failed record (every row comes from a completed record) — while
`getTransactions` still returns all N records. -/
theorem export_exactly_completed_rows (l : List SwapTransaction) :
    getTransactions l = l ∧
    (exportRecords l).length =
      (l.filter (fun tx => tx.status = TxStatus.completed)).length ∧
    (∀ tx ∈ l, tx.status = TxStatus.completed →
      mkExportRow tx ∈ exportRecords l) ∧
    (∀ row ∈ exportRecords l, ∃ tx ∈ l,
      tx.status = TxStatus.completed ∧ row = mkExportRow tx) := by
  refine ⟨rfl, ?_, ?_, ?_⟩
  · unfold exportRecords
    rw [List.length_map]
  · intro tx hmem hst
    unfold exportRecords
    exact List.mem_map_of_mem _ (List.mem_filter.mpr ⟨hmem, by simp [hst]⟩)
  · intro row hrow
    unfold exportRecords at hrow
    rcases List.mem_map.mp hrow with ⟨tx, htx, hrw⟩
    rcases List.mem_filter.mp htx with ⟨hmem, hst⟩
    exact ⟨tx, hmem, by simpa using hst, hrw.symm⟩

/-- C8 witness: on a ledger with three records of which two are completed,
the export has exactly two rows and the full history keeps all three. -/
theorem export_exactly_completed_rows_witness :
    getTransactions demoLedger = demoLedger ∧
    (exportRecords demoLedger).length =
      (demoLedger.filter (fun tx => tx.status = TxStatus.completed)).length ∧
    (exportRecords demoLedger).length = 2 ∧
    (getTransactions demoLedger).length = 3 :=
  ⟨(export_exactly_completed_rows demoLedger).1,
   (export_exactly_completed_rows demoLedger).2.1,
   by decide, by decide⟩

/-! ## C2 — trade sizing rules and the minimum-size gate -/

/-- C2: with balance `B` (micro units) and source price `p`, the sized
amount is `min maxNativeMicro (max 0 (B − keepReserveMicro))` when the
reserve is configured (the reserve rule uses the raw balance and overrides
the percentage rule), `min maxNativeMicro ⌊B·pct/100⌋` when only the
percentage is configured, and `min maxNativeMicro B` otherwise, where
`maxNativeMicro = maxUSD/p · 10^6` (the claim's `maxUSD/p` expressed in the
code's micro units, likewise `minNativeMicro = minUSD/p · 10^6` and the
reserve scaled by `10^6`); and the cycle proceeds past Sizing — makes its
route-quote call — iff the sized amount is at least `minNativeMicro`. -/
theorem sizing_rules_and_minimum_gate (cfg : SwapConfigM) (env : Env)
    (s : OrchState) (B p : ℚ)
    (hrun : s.isRunning = false)
    (hbal : env.balance = some B) (hB : ¬ B = 0)
    (hk : (getPricesM s.priceState env.now env.kyveFetch env.usdcFetch).1.1
      = some p)
    (hp : ¬ p = 0) :
    (0 < cfg.keepReserve →
      computeSwapAmount cfg B p =
        min (maxAmountMicro cfg p) (max 0 (B - keepReserveMicro cfg))) ∧
    (cfg.keepReserve = 0 → cfg.swapPercentage < 100 →
      computeSwapAmount cfg B p =
        min (maxAmountMicro cfg p)
          ((⌊B * (cfg.swapPercentage / 100)⌋ : ℤ) : ℚ)) ∧
    (cfg.keepReserve = 0 → ¬ cfg.swapPercentage < 100 →
      computeSwapAmount cfg B p = min (maxAmountMicro cfg p) B) ∧
    (((executeSwap cfg env s).2).quoteCalls =
      if computeSwapAmount cfg B p < minAmountMicro cfg p then s.quoteCalls
      else s.quoteCalls + 1) := by
  refine ⟨?_, ?_, ?_, ?_⟩
  · intro hkr
    have hkrM : keepReserveMicro cfg > 0 := by
      unfold keepReserveMicro
      exact mul_pos hkr (by norm_num)
    simp only [computeSwapAmount, if_pos hkrM]
    exact min_comm _ _
  · intro hkr hpct
    have hkrM : ¬ keepReserveMicro cfg > 0 := by
      unfold keepReserveMicro; rw [hkr]; norm_num
    simp only [computeSwapAmount, if_neg hkrM, if_pos hpct]
    exact min_comm _ _
  · intro hkr hpct
    have hkrM : ¬ keepReserveMicro cfg > 0 := by
      unfold keepReserveMicro; rw [hkr]; norm_num
    simp only [computeSwapAmount, if_neg hkrM, if_neg hpct]
    exact min_comm _ _
  · by_cases hlt : computeSwapAmount cfg B p < minAmountMicro cfg p
    · simp [executeSwap, executeSwapBody, hrun, hbal, hB, hk, hp, hlt]
    · rcases hr : getRouteM env.routeResponse with msg | route
      · simp [executeSwap, executeSwapBody, hrun, hbal, hB, hk, hp, hlt, hr]
      · by_cases hrate : route.amountOut / computeSwapAmount cfg B p <
            cfg.minEffectiveRate
        · simp [executeSwap, executeSwapBody, hrun, hbal, hB, hk, hp, hlt,
            hr, hrate]
        · rcases he : skipExecuteSwap cfg.timeoutMinutes route cfg.dryRun
              env.execOutcome with msg | result
          · simp [executeSwap, executeSwapBody, hrun, hbal, hB, hk, hp, hlt,
              hr, hrate, he]
          · simp [executeSwap, executeSwapBody, hrun, hbal, hB, hk, hp, hlt,
              hr, hrate, he]

/-- C2 witness: the demo policy (no reserve, 100 %) sizes to
`min maxNativeMicro B`, and the demo cycle (amount above the minimum)
makes exactly one quote call. -/
theorem sizing_rules_and_minimum_gate_witness :
    computeSwapAmount demoCfg 20000000 1 =
      min (maxAmountMicro demoCfg 1) 20000000 ∧
    ((executeSwap demoCfg demoEnv initState).2).quoteCalls =
      (if computeSwapAmount demoCfg 20000000 1 < minAmountMicro demoCfg 1
        then initState.quoteCalls else initState.quoteCalls + 1) :=
  ⟨(sizing_rules_and_minimum_gate demoCfg demoEnv initState 20000000 1
      rfl rfl (by decide) (by decide) (by decide)).2.2.1 rfl (by decide),
   (sizing_rules_and_minimum_gate demoCfg demoEnv initState 20000000 1
      rfl rfl (by decide) (by decide) (by decide)).2.2.2⟩

/-! ## C4 — rate-too-low skip -/

/-- C4: when the quoted effective rate (`quotedDestAmount / amount`) is
strictly below `minEffectiveRate`, the cycle ends as a skip: it returns the
no-trade value `null`, exactly one warning notification is sent, no
SwapRecord is appended to the in-memory ledger, nothing new is written
durably, and the execution driver is never called. -/
theorem rate_too_low_skip (cfg : SwapConfigM) (env : Env) (s : OrchState)
    (B p : ℚ) (route : Route)
    (hrun : s.isRunning = false)
    (hbal : env.balance = some B) (hB : ¬ B = 0)
    (hk : (getPricesM s.priceState env.now env.kyveFetch env.usdcFetch).1.1
      = some p)
    (hp : ¬ p = 0)
    (hmin : ¬ computeSwapAmount cfg B p < minAmountMicro cfg p)
    (hr : getRouteM env.routeResponse = Except.ok route)
    (hrate : route.amountOut / computeSwapAmount cfg B p <
      cfg.minEffectiveRate) :
    (executeSwap cfg env s).1 = none ∧
    ((executeSwap cfg env s).2).ledger = s.ledger ∧
    ((executeSwap cfg env s).2).savedFile = s.savedFile ∧
    ((executeSwap cfg env s).2).notifications =
      s.notifications ++ [("warning", "Swap cancelled: Rate too low")] ∧
    ((executeSwap cfg env s).2).executeCalls = s.executeCalls := by
  simp [executeSwap, executeSwapBody, hrun, hbal, hB, hk, hp, hmin, hr,
    hrate]

/-- A demo environment quoting a rate (1 / 20000000) far below the policy
floor of 0.0001. -/
def demoEnvLowRate : Env :=
  ⟨some 20000000, some 1, some 1, none, some ⟨20000000, 1, 1⟩,
   ExecOutcome.resolves [], true, "tx-1", "2024-01-01T00:00:00Z", 0, 0⟩

/-- The demo sizing: no reserve, 100 %, cap $1000/$1 · 10^6 = 10^9 — the
20000000-micro balance is taken whole. -/
lemma demo_amount : computeSwapAmount demoCfg 20000000 1 = 20000000 := by
  simp only [computeSwapAmount, keepReserveMicro, maxAmountMicro, demoCfg]
  norm_num

/-- The demo live-config sizing agrees (the configs differ only in dryRun). -/
lemma demo_amount_live :
    computeSwapAmount demoCfgLive 20000000 1 = 20000000 := by
  simp only [computeSwapAmount, keepReserveMicro, maxAmountMicro, demoCfgLive]
  norm_num

/-- The demo minimum: $10/$1 · 10^6 = 10^7 micro. -/
lemma demo_min : minAmountMicro demoCfg 1 = 10000000 := by
  simp only [minAmountMicro, demoCfg]
  norm_num

/-- The demo live-config minimum agrees. -/
lemma demo_min_live : minAmountMicro demoCfgLive 1 = 10000000 := by
  simp only [minAmountMicro, demoCfgLive]
  norm_num

/-- C4 witness: the low-rate quote is skipped with one warning and an
untouched ledger. -/
theorem rate_too_low_skip_witness :
    (executeSwap demoCfg demoEnvLowRate initState).1 = none ∧
    ((executeSwap demoCfg demoEnvLowRate initState).2).ledger = [] ∧
    ((executeSwap demoCfg demoEnvLowRate initState).2).notifications =
      [("warning", "Swap cancelled: Rate too low")] := by
  have h := rate_too_low_skip demoCfg demoEnvLowRate initState 20000000 1
    ⟨20000000, 1, 1⟩ rfl rfl (by decide) (by decide) (by decide)
    (by rw [demo_amount, demo_min]; norm_num)
    rfl
    (by rw [demo_amount]
        show (1 : ℚ) / 20000000 < demoCfg.minEffectiveRate
        simp only [demoCfg]
        norm_num)
  exact ⟨h.1, h.2.1, h.2.2.2.1⟩

/-! ## C9 — failed/zero price lookup is a silent skip -/

/-- C9: with a non-zero balance, if the KYVE price lookup fails (`null`) or
returns price 0 — so the orchestrator's `prices.get('kyve')?.price || 0`
yields 0 — the cycle returns `null` and stops silently: no SwapRecord, no
durable write, no notification of any level, no quote or execute call; a
skip path absent from the spec's NoBalance / BelowMinimum / RateTooLow
taxonomy. -/
theorem price_failure_silent_skip (cfg : SwapConfigM) (env : Env)
    (s : OrchState) (B : ℚ)
    (hrun : s.isRunning = false)
    (hbal : env.balance = some B) (hB : ¬ B = 0)
    (hk : ((getPricesM s.priceState env.now env.kyveFetch
      env.usdcFetch).1.1).getD 0 = 0) :
    (executeSwap cfg env s).1 = none ∧
    ((executeSwap cfg env s).2).ledger = s.ledger ∧
    ((executeSwap cfg env s).2).savedFile = s.savedFile ∧
    ((executeSwap cfg env s).2).notifications = s.notifications ∧
    ((executeSwap cfg env s).2).quoteCalls = s.quoteCalls ∧
    ((executeSwap cfg env s).2).executeCalls = s.executeCalls := by
  simp [executeSwap, executeSwapBody, hrun, hbal, hB, hk]

/-- A demo environment where the KYVE price fetch fails. -/
def demoEnvNoPrice : Env :=
  ⟨some 20000000, none, some 1, none, some demoRoute,
   ExecOutcome.resolves [], true, "tx-1", "2024-01-01T00:00:00Z", 0, 0⟩

/-- C9 witness: balance present, price fetch fails — null return, empty
ledger, zero notifications. -/
theorem price_failure_silent_skip_witness :
    (executeSwap demoCfg demoEnvNoPrice initState).1 = none ∧
    ((executeSwap demoCfg demoEnvNoPrice initState).2).ledger = [] ∧
    ((executeSwap demoCfg demoEnvNoPrice initState).2).notifications = [] := by
  have h := price_failure_silent_skip demoCfg demoEnvNoPrice initState
    20000000 rfl rfl (by decide) (by decide)
  exact ⟨h.1, h.2.1, h.2.2.2.1⟩

/-! ## C10 — dry-run cycles persist first-class completed records -/

/-- The SwapRecord the orchestrator builds on the dry-run success path,
with the Skip result fields already substituted. -/
def dryRunTx (cfg : SwapConfigM) (env : Env) (s : OrchState) (B p : ℚ)
    (route : Route) : SwapTransaction :=
  { id := env.txId, timestamp := env.startTime, fromToken := "KYVE",
    toToken := "USDC", fromAmount := computeSwapAmount cfg B p,
    toAmount := route.amountOut, fromChainId := cfg.sourceChainId,
    toChainId := cfg.destChainId, kyvePrice := p,
    usdcPrice := (getPricesM s.priceState env.now env.kyveFetch
      env.usdcFetch).1.2.getD 1,
    costBasisUSD := (calculateCostBasis (getPricesM s.priceState env.now
      env.kyveFetch env.usdcFetch).2 env.now2 (computeSwapAmount cfg B p)
      env.kyveFetch2).1,
    gasFeesUSD := 0,
    effectiveRate := route.amountOut / computeSwapAmount cfg B p,
    txHash := "DRY_RUN_TX", status := TxStatus.completed, error := none,
    chainTransactions := [] }

/-- C10: in dry-run mode, a cycle that reaches the execution phase appends
a SwapRecord with status `completed`, txHash `DRY_RUN_TX`, `toAmount` equal
to the quoted estimate, and an empty leg list; that record is counted by
the completed-only query, adds its cost basis to `getTotalVolumeUSD`, and
appears in the accounting export exactly like a real completed trade. -/
theorem dry_run_completed_record (cfg : SwapConfigM) (env : Env)
    (s : OrchState) (B p : ℚ) (route : Route)
    (hrun : s.isRunning = false)
    (hbal : env.balance = some B) (hB : ¬ B = 0)
    (hk : (getPricesM s.priceState env.now env.kyveFetch env.usdcFetch).1.1
      = some p)
    (hp : ¬ p = 0)
    (hmin : ¬ computeSwapAmount cfg B p < minAmountMicro cfg p)
    (hr : getRouteM env.routeResponse = Except.ok route)
    (hrate : ¬ route.amountOut / computeSwapAmount cfg B p <
      cfg.minEffectiveRate)
    (hdry : cfg.dryRun = true) :
    ∃ tx, (executeSwap cfg env s).1 = some tx ∧
      tx.status = TxStatus.completed ∧
      tx.txHash = "DRY_RUN_TX" ∧
      tx.toAmount = route.amountOut ∧
      tx.chainTransactions = [] ∧
      ((executeSwap cfg env s).2).ledger = s.ledger ++ [tx] ∧
      getSuccessfulTransactions (((executeSwap cfg env s).2).ledger) =
        getSuccessfulTransactions s.ledger ++ [tx] ∧
      getTotalVolumeUSD (((executeSwap cfg env s).2).ledger) =
        getTotalVolumeUSD s.ledger + tx.costBasisUSD ∧
      exportRecords (((executeSwap cfg env s).2).ledger) =
        exportRecords s.ledger ++ [mkExportRow tx] := by
  have he : skipExecuteSwap cfg.timeoutMinutes route cfg.dryRun env.execOutcome
      = Except.ok ⟨true, some "DRY_RUN_TX", some route.amountOut, []⟩ := by
    simp [skipExecuteSwap, hdry]
  have h1 : (executeSwap cfg env s).1 =
      some (dryRunTx cfg env s B p route) := by
    simp [executeSwap, executeSwapBody, dryRunTx, hrun, hbal, hB, hk, hp,
      hmin, hr, hrate, he]
  have h2 : ((executeSwap cfg env s).2).ledger =
      s.ledger ++ [dryRunTx cfg env s B p route] := by
    simp [executeSwap, executeSwapBody, dryRunTx, hrun, hbal, hB, hk, hp,
      hmin, hr, hrate, he]
  refine ⟨_, h1, rfl, rfl, rfl, rfl, h2, ?_, ?_, ?_⟩
  · rw [h2]; exact getSuccessfulTransactions_append_completed _ _ rfl
  · rw [h2]; exact getTotalVolumeUSD_append_completed _ _ rfl
  · rw [h2]; exact exportRecords_append_completed _ _ rfl

/-- C10 witness: the demo dry-run cycle appends exactly one completed
`DRY_RUN_TX` record to the empty ledger. -/
theorem dry_run_completed_record_witness :
    ∃ tx, (executeSwap demoCfg demoEnv initState).1 = some tx ∧
      tx.status = TxStatus.completed ∧ tx.txHash = "DRY_RUN_TX" ∧
      tx.toAmount = demoRoute.amountOut ∧ tx.chainTransactions = [] ∧
      ((executeSwap demoCfg demoEnv initState).2).ledger = [tx] := by
  obtain ⟨tx, h1, h2, h3, h4, h5, h6, -⟩ :=
    dry_run_completed_record demoCfg demoEnv initState 20000000 1 demoRoute
      rfl rfl (by norm_num) (by decide) (by norm_num)
      (by rw [demo_amount, demo_min]; norm_num) rfl
      (by rw [demo_amount]; simp only [demoRoute, demoCfg]; norm_num) rfl
  exact ⟨tx, h1, h2, h3, h4, h5, by simpa using h6⟩

/-! ## C6 — cost basis: the Sizing price holds only within the cache window

`calculateCostBasis` re-reads the KYVE price through `PriceService.getPrice`
with a fresh `Date.now()`; the entry cached at Sizing is checked for expiry
at that later instant (lazy eviction, strict `>`), so if the window has
elapsed — certainly with a zero `cacheDuration` — the price is re-fetched
from the network and the cost basis is priced at the new price, not the
Sizing price. -/

/-- An idle orchestrator whose price cache has a zero-length validity
window (`PRICE_CACHE_DURATION` 0, a legal configuration). -/
def zeroCacheState : OrchState :=
  ⟨false, [], none, [], 0, 0, ⟨fun _ => none, 0⟩⟩

/-- A demo environment in which the clock advances by one instant between
the Sizing price read and the cost-basis re-read, and the re-fetch then
returns $2 instead of the Sizing price $1. -/
def demoEnvRefetch : Env :=
  ⟨some 20000000, some 1, some 1, some 2, some demoRoute,
   ExecOutcome.resolves [], true, "tx-1", "2024-01-01T00:00:00Z", 0, 1⟩

/-- Under the zero-length cache window, the cost-basis re-read at instant 1
finds the Sizing entry (stamped 0) expired, evicts it and re-fetches at $2:
for every amount `A` the computed cost basis is `A / 10^6 · 2`. -/
lemma demoRefetch_costBasis (A : ℚ) :
    (calculateCostBasis (getPricesM zeroCacheState.priceState
      demoEnvRefetch.now demoEnvRefetch.kyveFetch demoEnvRefetch.usdcFetch).2
      demoEnvRefetch.now2 A demoEnvRefetch.kyveFetch2).1 =
    A / 1000000 * 2 := by
  simp [calculateCostBasis, getPricesM, getPriceM, getCachedPrice,
    cachePrice, updateCache, zeroCacheState, demoEnvRefetch]

/-- C6 counterexample: the Sizing read fetches $1 and sizes the trade with
it (the persisted `kyvePrice` is 1), but the cost-basis re-read happens
after the zero-length cache window has elapsed, re-fetches at $2, and the
persisted `costBasisUSD` is 40 = 20000000/10^6 · 2 — not
20 = 20000000/10^6 · 1 as the claim requires, so a price change between
Sizing and settlement did change `costBasisUSD`. -/
theorem cost_basis_refetch_cex :
    ((executeSwap demoCfg demoEnvRefetch zeroCacheState).1.map
      SwapTransaction.costBasisUSD) = some 40 ∧
    ((executeSwap demoCfg demoEnvRefetch zeroCacheState).1.map
      SwapTransaction.kyvePrice) = some 1 ∧
    computeSwapAmount demoCfg 20000000 1 / 1000000 * 1 = 20 ∧
    (40 : ℚ) ≠ 20 := by
  have hkc : (getPricesM zeroCacheState.priceState demoEnvRefetch.now
      demoEnvRefetch.kyveFetch demoEnvRefetch.usdcFetch).1.1 = some 1 := by
    decide
  have hminf : ¬ computeSwapAmount demoCfg 20000000 1 <
      minAmountMicro demoCfg 1 := by
    rw [demo_amount, demo_min]; norm_num
  have hroute : getRouteM demoEnvRefetch.routeResponse =
      Except.ok demoRoute := rfl
  have hratef : ¬ demoRoute.amountOut / computeSwapAmount demoCfg 20000000 1 <
      demoCfg.minEffectiveRate := by
    rw [demo_amount]; simp only [demoRoute, demoCfg]; norm_num
  have he : skipExecuteSwap demoCfg.timeoutMinutes demoRoute demoCfg.dryRun
      demoEnvRefetch.execOutcome =
      Except.ok ⟨true, some "DRY_RUN_TX", some demoRoute.amountOut, []⟩ := by
    simp [skipExecuteSwap, demoCfg]
  have h_run : zeroCacheState.isRunning = false := rfl
  have h_bal : demoEnvRefetch.balance = some 20000000 := rfl
  have h_B : ¬ (20000000 : ℚ) = 0 := by norm_num
  have h_p : ¬ (1 : ℚ) = 0 := by norm_num
  have htx : (executeSwap demoCfg demoEnvRefetch zeroCacheState).1 =
      some (dryRunTx demoCfg demoEnvRefetch zeroCacheState 20000000 1
        demoRoute) := by
    simp [executeSwap, executeSwapBody, dryRunTx, h_run, h_bal, h_B, hkc,
      h_p, hminf, hroute, hratef, he]
  refine ⟨?_, ?_, by rw [demo_amount]; norm_num, by norm_num⟩
  · rw [htx]
    simp only [Option.map_some', Option.some.injEq, dryRunTx]
    rw [demoRefetch_costBasis, demo_amount]
    norm_num
  · rw [htx]
    simp [dryRunTx]

/-- C6 (amended): in every cycle that returns a completed record, the
persisted `costBasisUSD` equals the sized source amount (scaled from micro
units) times the Sizing-phase KYVE price, and `kyvePrice` records that
price — provided the cost-basis re-read still falls inside the price
cache's validity window: when the KYVE slot is empty at cycle start (so the
Sizing fetch caches its price at the Sizing instant `now`) and the
cost-basis `Date.now()` is at most `cacheDuration` later, the re-read is a
cache hit, independent of the network price a re-fetch would have returned
(the theorem holds for every `env.kyveFetch2`).  After the cost basis is
computed — before quoting and execution — no price reads occur, so price
changes from then until settlement cannot affect it.  Without the window
hypothesis the property fails: see `cost_basis_refetch_cex`. -/
theorem cost_basis_uses_sizing_price_within_window (cfg : SwapConfigM)
    (env : Env) (s : OrchState) (B p : ℚ) (tx : SwapTransaction)
    (hmiss : s.priceState.cache "kyve" = none)
    (hwin : env.now2 - env.now ≤ s.priceState.cacheDuration)
    (hrun : s.isRunning = false)
    (hbal : env.balance = some B) (hB : ¬ B = 0)
    (hk : (getPricesM s.priceState env.now env.kyveFetch env.usdcFetch).1.1
      = some p)
    (hp : ¬ p = 0)
    (htx : (executeSwap cfg env s).1 = some tx)
    (hst : tx.status = TxStatus.completed) :
    tx.costBasisUSD = computeSwapAmount cfg B p / 1000000 * p ∧
    tx.kyvePrice = p ∧
    tx.fromAmount = computeSwapAmount cfg B p := by
  have hcb := calculateCostBasis_after_prices s.priceState env.now env.now2
    env.kyveFetch env.usdcFetch env.kyveFetch2 p (computeSwapAmount cfg B p)
    hmiss hk hwin
  by_cases hlt : computeSwapAmount cfg B p < minAmountMicro cfg p
  · simp [executeSwap, executeSwapBody, hrun, hbal, hB, hk, hp, hlt] at htx
  · rcases hr : getRouteM env.routeResponse with msg | route
    · simp [executeSwap, executeSwapBody, hrun, hbal, hB, hk, hp, hlt,
        hr] at htx
      rw [← htx] at hst
      simp [failedTx] at hst
    · by_cases hrate : route.amountOut / computeSwapAmount cfg B p <
          cfg.minEffectiveRate
      · simp [executeSwap, executeSwapBody, hrun, hbal, hB, hk, hp, hlt, hr,
          hrate] at htx
      · rcases he : skipExecuteSwap cfg.timeoutMinutes route cfg.dryRun
            env.execOutcome with msg | result
        · simp [executeSwap, executeSwapBody, hrun, hbal, hB, hk, hp, hlt,
            hr, hrate, he] at htx
          rw [← htx] at hst
          simp [failedTx] at hst
        · simp [executeSwap, executeSwapBody, hrun, hbal, hB, hk, hp, hlt,
            hr, hrate, he, hcb] at htx
          rw [← htx]
          exact ⟨rfl, rfl, rfl⟩

/-- C6 witness: the demo dry-run cycle starts with an empty cache and both
clock reads at instant 0, well inside the 300000 ms window, so the
persisted cost basis is the sized amount over 10^6 times the Sizing price
$1. -/
theorem cost_basis_uses_sizing_price_within_window_witness :
    ∃ tx, (executeSwap demoCfg demoEnv initState).1 = some tx ∧
      tx.costBasisUSD = computeSwapAmount demoCfg 20000000 1 / 1000000 * 1 ∧
      tx.kyvePrice = 1 := by
  have hkc : (getPricesM initState.priceState demoEnv.now demoEnv.kyveFetch
      demoEnv.usdcFetch).1.1 = some 1 := by decide
  have hminf : ¬ computeSwapAmount demoCfg 20000000 1 <
      minAmountMicro demoCfg 1 := by
    rw [demo_amount, demo_min]; norm_num
  have hroute : getRouteM demoEnv.routeResponse = Except.ok demoRoute := rfl
  have hratef : ¬ demoRoute.amountOut / computeSwapAmount demoCfg 20000000 1 <
      demoCfg.minEffectiveRate := by
    rw [demo_amount]; simp only [demoRoute, demoCfg]; norm_num
  have he : skipExecuteSwap demoCfg.timeoutMinutes demoRoute demoCfg.dryRun
      demoEnv.execOutcome =
      Except.ok ⟨true, some "DRY_RUN_TX", some demoRoute.amountOut, []⟩ := by
    simp [skipExecuteSwap, demoCfg]
  have h_run : initState.isRunning = false := rfl
  have h_bal : demoEnv.balance = some 20000000 := rfl
  have h_B : ¬ (20000000 : ℚ) = 0 := by norm_num
  have h_p : ¬ (1 : ℚ) = 0 := by norm_num
  have htx : (executeSwap demoCfg demoEnv initState).1 =
      some (dryRunTx demoCfg demoEnv initState 20000000 1 demoRoute) := by
    simp [executeSwap, executeSwapBody, dryRunTx, h_run, h_bal, h_B, hkc,
      h_p, hminf, hroute, hratef, he]
  have h := cost_basis_uses_sizing_price_within_window demoCfg demoEnv
    initState 20000000 1
    (dryRunTx demoCfg demoEnv initState 20000000 1 demoRoute)
    rfl (by decide) rfl rfl h_B hkc h_p htx rfl
  exact ⟨_, htx, h.1, h.2.1⟩

/-! ## C5 — no-route failure: a record is appended, but with zero amounts

`SkipSwapService.getRoute` throws `No route found for swap` on an empty or
missing route; the orchestrator's `catch` block then builds the failure
record from scratch with `fromAmount: '0'` — the sized trade amount of the
cycle is *not* recorded. -/

/-- A demo environment whose route request yields no route. -/
def demoEnvNoRoute : Env :=
  ⟨some 20000000, some 1, some 1, none, none,
   ExecOutcome.resolves [], true, "tx-1", "2024-01-01T00:00:00Z", 0, 0⟩

/-- C5 counterexample: the demo cycle sizes the trade at 20000000 micro,
the route comes back empty, and the appended failed record carries
`fromAmount = 0`, not the sized amount — refuting the claim that
`sourceAmount` equals the cycle's sized trade amount. -/
theorem no_route_record_zero_amount_cex :
    computeSwapAmount demoCfgLive 20000000 1 = 20000000 ∧
    ((executeSwap demoCfgLive demoEnvNoRoute initState).2).ledger.map
      SwapTransaction.fromAmount = [0] ∧
    ((executeSwap demoCfgLive demoEnvNoRoute initState).2).ledger.map
      SwapTransaction.status = [TxStatus.failed] ∧
    ((executeSwap demoCfgLive demoEnvNoRoute initState).2).ledger.map
      SwapTransaction.toAmount = [0] ∧
    (0 : ℚ) ≠ 20000000 := by
  have hkc : (getPricesM initState.priceState demoEnvNoRoute.now
      demoEnvNoRoute.kyveFetch demoEnvNoRoute.usdcFetch).1.1 = some 1 := by
    decide
  have hminf : ¬ computeSwapAmount demoCfgLive 20000000 1 <
      minAmountMicro demoCfgLive 1 := by
    rw [demo_amount_live, demo_min_live]; norm_num
  have hroute : getRouteM demoEnvNoRoute.routeResponse =
      Except.error "No route found for swap" := rfl
  have h_run : initState.isRunning = false := rfl
  have h_bal : demoEnvNoRoute.balance = some 20000000 := rfl
  have h_B : ¬ (20000000 : ℚ) = 0 := by norm_num
  have h_p : ¬ (1 : ℚ) = 0 := by norm_num
  have h2 : ((executeSwap demoCfgLive demoEnvNoRoute initState).2).ledger =
      [] ++ [failedTx demoCfgLive demoEnvNoRoute "No route found for swap"] := by
    simp [executeSwap, executeSwapBody, h_run, h_bal, h_B, hkc, h_p, hminf,
      hroute, show initState.ledger = [] from rfl]
  refine ⟨demo_amount_live, ?_, ?_, ?_, by norm_num⟩ <;>
    simp [h2, failedTx]

/-- C5 (amended): when the route request yields an empty or missing route,
the cycle fails with the `No route found for swap` error and a SwapRecord
IS appended with lifecycleStatus `failed` and `destAmount = 0` — but its
`sourceAmount` is recorded as 0 (the catch-path record zeroes all amounts),
not as the sized trade amount of the cycle; an error notification is sent
and the record is returned to the caller. -/
theorem no_route_failed_record (cfg : SwapConfigM) (env : Env)
    (s : OrchState) (B p : ℚ)
    (hrun : s.isRunning = false)
    (hbal : env.balance = some B) (hB : ¬ B = 0)
    (hk : (getPricesM s.priceState env.now env.kyveFetch env.usdcFetch).1.1
      = some p)
    (hp : ¬ p = 0)
    (hmin : ¬ computeSwapAmount cfg B p < minAmountMicro cfg p)
    (hr : getRouteM env.routeResponse =
      Except.error "No route found for swap") :
    ∃ tx, (executeSwap cfg env s).1 = some tx ∧
      tx.status = TxStatus.failed ∧
      tx.error = some "No route found for swap" ∧
      tx.toAmount = 0 ∧
      tx.fromAmount = 0 ∧
      ((executeSwap cfg env s).2).ledger = s.ledger ++ [tx] ∧
      ((executeSwap cfg env s).2).notifications = s.notifications ++
        [("error", "Swap failed: No route found for swap")] := by
  have h1 : (executeSwap cfg env s).1 =
      some (failedTx cfg env "No route found for swap") := by
    simp [executeSwap, executeSwapBody, hrun, hbal, hB, hk, hp, hmin, hr]
  have h2 : ((executeSwap cfg env s).2).ledger =
      s.ledger ++ [failedTx cfg env "No route found for swap"] := by
    simp [executeSwap, executeSwapBody, hrun, hbal, hB, hk, hp, hmin, hr]
  have h3 : ((executeSwap cfg env s).2).notifications = s.notifications ++
      [("error", "Swap failed: No route found for swap")] := by
    simp [executeSwap, executeSwapBody, hrun, hbal, hB, hk, hp, hmin, hr]
  exact ⟨_, h1, rfl, rfl, rfl, rfl, h2, h3⟩

/-- C5 witness: the amended statement at the demo no-route cycle. -/
theorem no_route_failed_record_witness :
    ∃ tx, (executeSwap demoCfgLive demoEnvNoRoute initState).1 = some tx ∧
      tx.status = TxStatus.failed ∧
      tx.error = some "No route found for swap" ∧
      tx.fromAmount = 0 ∧
      ((executeSwap demoCfgLive demoEnvNoRoute initState).2).ledger = [tx] := by
  obtain ⟨tx, h1, h2, h3, h4, h5, h6, -⟩ :=
    no_route_failed_record demoCfgLive demoEnvNoRoute initState 20000000 1
      rfl rfl (by norm_num) (by decide) (by norm_num)
      (by rw [demo_amount_live, demo_min_live]; norm_num) rfl
  exact ⟨tx, h1, h2, h3, h5, by simpa using h6⟩

/-! ## C1 — execution timeout: the record loses the observed legs

In `SkipSwapService.executeSwap` the `chainTransactions` accumulator lives
in a local closure; when the timeout promise wins the race, the function
throws the timeout `Error` and only its message reaches the orchestrator,
whose `catch` block builds the failure record with no chain transactions
and zero amounts.  The legs observed before the deadline are therefore
*not* attached to the persisted SwapRecord. -/

/-- A demo environment whose execution driver emits one broadcast leg and
then never resolves before the deadline. -/
def demoEnvTimeout : Env :=
  ⟨some 20000000, some 1, some 1, none, some demoRoute,
   ExecOutcome.timesOut [ExecEvent.broadcast "kyve-1" "HASH1" "t0"], true,
   "tx-1", "2024-01-01T00:00:00Z", 0, 0⟩

/-- C1 counterexample: the driver emitted exactly one broadcast leg before
the deadline, yet the record persisted for the timed-out cycle carries an
empty leg list — not that leg — refuting the claim that every observed
ChainLeg is attached to the SwapRecord. -/
theorem timeout_attaches_legs_cex :
    demoEnvTimeout.execOutcome =
      ExecOutcome.timesOut [ExecEvent.broadcast "kyve-1" "HASH1" "t0"] ∧
    ((executeSwap demoCfgLive demoEnvTimeout initState).2).ledger.map
      SwapTransaction.chainTransactions = [[]] ∧
    ((executeSwap demoCfgLive demoEnvTimeout initState).2).ledger.map
      SwapTransaction.status = [TxStatus.failed] ∧
    ([] : List ChainTx) ≠ [⟨"kyve-1", "HASH1", "broadcast", "t0"⟩] := by
  have hkc : (getPricesM initState.priceState demoEnvTimeout.now
      demoEnvTimeout.kyveFetch demoEnvTimeout.usdcFetch).1.1 = some 1 := by
    decide
  have hminf : ¬ computeSwapAmount demoCfgLive 20000000 1 <
      minAmountMicro demoCfgLive 1 := by
    rw [demo_amount_live, demo_min_live]; norm_num
  have hroute : getRouteM demoEnvTimeout.routeResponse =
      Except.ok demoRoute := rfl
  have hratef : ¬ demoRoute.amountOut / computeSwapAmount demoCfgLive
      20000000 1 < demoCfgLive.minEffectiveRate := by
    rw [demo_amount_live]; simp only [demoRoute, demoCfgLive]; norm_num
  have he : skipExecuteSwap demoCfgLive.timeoutMinutes demoRoute
      demoCfgLive.dryRun demoEnvTimeout.execOutcome =
      Except.error ("Swap execution timed out after " ++
        toString demoCfgLive.timeoutMinutes ++ " minutes") := by
    simp [skipExecuteSwap, show demoCfgLive.dryRun = false from rfl,
      show demoEnvTimeout.execOutcome =
        ExecOutcome.timesOut [ExecEvent.broadcast "kyve-1" "HASH1" "t0"]
        from rfl]
  have h_run : initState.isRunning = false := rfl
  have h_bal : demoEnvTimeout.balance = some 20000000 := rfl
  have h_B : ¬ (20000000 : ℚ) = 0 := by norm_num
  have h_p : ¬ (1 : ℚ) = 0 := by norm_num
  have h2 : ((executeSwap demoCfgLive demoEnvTimeout initState).2).ledger =
      [] ++ [failedTx demoCfgLive demoEnvTimeout
        ("Swap execution timed out after " ++
          toString demoCfgLive.timeoutMinutes ++ " minutes")] := by
    simp [executeSwap, executeSwapBody, h_run, h_bal, h_B, hkc, h_p, hminf,
      hroute, hratef, he, show initState.ledger = [] from rfl]
  refine ⟨rfl, ?_, ?_, by decide⟩ <;> simp [h2, failedTx]

/-- C1 (amended): a cycle whose execution does not resolve before the
deadline fails with the `Swap execution timed out after … minutes` error
and appends a SwapRecord with lifecycleStatus `failed` — but the ChainLegs
observed before the timeout are discarded: whatever events the driver
emitted, the persisted record's leg list is empty and its amounts are
zeroed, because the timeout rejection carries only the error message out of
the execution closure. -/
theorem timeout_failed_record_without_legs (cfg : SwapConfigM) (env : Env)
    (s : OrchState) (B p : ℚ) (route : Route) (evs : List ExecEvent)
    (hrun : s.isRunning = false)
    (hbal : env.balance = some B) (hB : ¬ B = 0)
    (hk : (getPricesM s.priceState env.now env.kyveFetch env.usdcFetch).1.1
      = some p)
    (hp : ¬ p = 0)
    (hmin : ¬ computeSwapAmount cfg B p < minAmountMicro cfg p)
    (hr : getRouteM env.routeResponse = Except.ok route)
    (hrate : ¬ route.amountOut / computeSwapAmount cfg B p <
      cfg.minEffectiveRate)
    (hdry : cfg.dryRun = false)
    (hout : env.execOutcome = ExecOutcome.timesOut evs) :
    ∃ tx, (executeSwap cfg env s).1 = some tx ∧
      tx.status = TxStatus.failed ∧
      tx.error = some ("Swap execution timed out after " ++
        toString cfg.timeoutMinutes ++ " minutes") ∧
      tx.chainTransactions = [] ∧
      tx.fromAmount = 0 ∧
      tx.toAmount = 0 ∧
      ((executeSwap cfg env s).2).ledger = s.ledger ++ [tx] := by
  have he : skipExecuteSwap cfg.timeoutMinutes route cfg.dryRun
      env.execOutcome = Except.error ("Swap execution timed out after " ++
        toString cfg.timeoutMinutes ++ " minutes") := by
    simp [skipExecuteSwap, hdry, hout]
  have h1 : (executeSwap cfg env s).1 =
      some (failedTx cfg env ("Swap execution timed out after " ++
        toString cfg.timeoutMinutes ++ " minutes")) := by
    simp [executeSwap, executeSwapBody, hrun, hbal, hB, hk, hp, hmin, hr,
      hrate, he]
  have h2 : ((executeSwap cfg env s).2).ledger = s.ledger ++
      [failedTx cfg env ("Swap execution timed out after " ++
        toString cfg.timeoutMinutes ++ " minutes")] := by
    simp [executeSwap, executeSwapBody, hrun, hbal, hB, hk, hp, hmin, hr,
      hrate, he]
  exact ⟨_, h1, rfl, rfl, rfl, rfl, rfl, h2⟩

/-- C1 witness: the amended statement at the demo timed-out cycle. -/
theorem timeout_failed_record_without_legs_witness :
    ∃ tx, (executeSwap demoCfgLive demoEnvTimeout initState).1 = some tx ∧
      tx.status = TxStatus.failed ∧
      tx.chainTransactions = [] ∧
      ((executeSwap demoCfgLive demoEnvTimeout initState).2).ledger = [tx] := by
  obtain ⟨tx, h1, h2, h3, h4, h5, h6, h7⟩ :=
    timeout_failed_record_without_legs demoCfgLive demoEnvTimeout initState
      20000000 1 demoRoute [ExecEvent.broadcast "kyve-1" "HASH1" "t0"]
      rfl rfl (by norm_num) (by decide) (by norm_num)
      (by rw [demo_amount_live, demo_min_live]; norm_num) rfl
      (by rw [demo_amount_live]; simp only [demoRoute, demoCfgLive]; norm_num)
      rfl rfl
  exact ⟨tx, h1, h2, h4, by simpa using h7⟩

/-! ## C7 — a failed ledger write is swallowed, not surfaced

`TransactionLogger.saveTransactions` wraps its file write in its own
`try/catch` and only logs a failure; `logTransaction` therefore never
throws, the orchestrator proceeds to the success notification, and the
trigger caller receives the completed record as if persistence had
succeeded. -/

/-- The SwapRecord the orchestrator builds on the (non-throwing) execution
success path, as a function of the Skip result. -/
def settledTx (cfg : SwapConfigM) (env : Env) (s : OrchState) (B p : ℚ)
    (route : Route) (result : ExecResult) : SwapTransaction :=
  { id := env.txId, timestamp := env.startTime, fromToken := "KYVE",
    toToken := "USDC", fromAmount := computeSwapAmount cfg B p,
    toAmount := result.amountOut.getD route.amountOut,
    fromChainId := cfg.sourceChainId, toChainId := cfg.destChainId,
    kyvePrice := p,
    usdcPrice := (getPricesM s.priceState env.now env.kyveFetch
      env.usdcFetch).1.2.getD 1,
    costBasisUSD := (calculateCostBasis (getPricesM s.priceState env.now
      env.kyveFetch env.usdcFetch).2 env.now2 (computeSwapAmount cfg B p)
      env.kyveFetch2).1,
    gasFeesUSD := 0,
    effectiveRate := result.amountOut.getD route.amountOut /
      computeSwapAmount cfg B p,
    txHash :=
      match result.chainTransactions with
      | [] => result.txHash.getD "PENDING"
      | t :: _ => t.txHash,
    status := if result.success then TxStatus.completed else TxStatus.failed,
    error := none,
    chainTransactions := result.chainTransactions }

/-- A demo environment in which the durable ledger write fails. -/
def demoEnvSaveFail : Env :=
  ⟨some 20000000, some 1, some 1, none, some demoRoute,
   ExecOutcome.resolves [], false, "tx-1", "2024-01-01T00:00:00Z", 0, 0⟩

/-- C7 counterexample: the durable write fails (`saveOk = false`, nothing
reaches the file — `savedFile` stays `none`), yet the cycle still returns a
`completed` record and sends a success notification — no error is surfaced
to the caller and no error notification is sent, refuting the claim that
the cycle does not claim completion when its record cannot be persisted. -/
theorem ledger_write_failure_cex :
    demoEnvSaveFail.saveOk = false ∧
    ((executeSwap demoCfg demoEnvSaveFail initState).1.map
      SwapTransaction.status) = some TxStatus.completed ∧
    ((executeSwap demoCfg demoEnvSaveFail initState).2).savedFile = none ∧
    ((executeSwap demoCfg demoEnvSaveFail initState).2).notifications.map
      Prod.fst = ["success"] := by
  have hkc : (getPricesM initState.priceState demoEnvSaveFail.now
      demoEnvSaveFail.kyveFetch demoEnvSaveFail.usdcFetch).1.1 = some 1 := by
    decide
  have hminf : ¬ computeSwapAmount demoCfg 20000000 1 <
      minAmountMicro demoCfg 1 := by
    rw [demo_amount, demo_min]; norm_num
  have hroute : getRouteM demoEnvSaveFail.routeResponse =
      Except.ok demoRoute := rfl
  have hratef : ¬ demoRoute.amountOut / computeSwapAmount demoCfg 20000000 1 <
      demoCfg.minEffectiveRate := by
    rw [demo_amount]; simp only [demoRoute, demoCfg]; norm_num
  have he : skipExecuteSwap demoCfg.timeoutMinutes demoRoute demoCfg.dryRun
      demoEnvSaveFail.execOutcome =
      Except.ok ⟨true, some "DRY_RUN_TX", some demoRoute.amountOut, []⟩ := by
    simp [skipExecuteSwap, demoCfg]
  have h_run : initState.isRunning = false := rfl
  have h_bal : demoEnvSaveFail.balance = some 20000000 := rfl
  have h_B : ¬ (20000000 : ℚ) = 0 := by norm_num
  have h_p : ¬ (1 : ℚ) = 0 := by norm_num
  have h_save : demoEnvSaveFail.saveOk = false := rfl
  refine ⟨rfl, ?_, ?_, ?_⟩ <;>
    simp [executeSwap, executeSwapBody, h_run, h_bal, h_B, hkc, h_p, hminf,
      hroute, hratef, he, h_save, logTransactionM_savedFile_false,
      show initState.savedFile = none from rfl,
      show initState.notifications = [] from rfl]

/-- C7 (amended): if the durable ledger write fails during a successful
cycle, the failure is caught inside the logger and only logged: the
in-memory ledger keeps the record but nothing reaches the durable store
(`savedFile` unchanged); the cycle nevertheless completes normally — the
process does not crash, the completed record is returned to the trigger
caller, and the only notification sent is the success notification (no
error is notified and no failure is surfaced). -/
theorem ledger_write_failure_swallowed (cfg : SwapConfigM) (env : Env)
    (s : OrchState) (B p : ℚ) (route : Route) (result : ExecResult)
    (hrun : s.isRunning = false)
    (hbal : env.balance = some B) (hB : ¬ B = 0)
    (hk : (getPricesM s.priceState env.now env.kyveFetch env.usdcFetch).1.1
      = some p)
    (hp : ¬ p = 0)
    (hmin : ¬ computeSwapAmount cfg B p < minAmountMicro cfg p)
    (hr : getRouteM env.routeResponse = Except.ok route)
    (hrate : ¬ route.amountOut / computeSwapAmount cfg B p <
      cfg.minEffectiveRate)
    (he : skipExecuteSwap cfg.timeoutMinutes route cfg.dryRun env.execOutcome
      = Except.ok result)
    (hsucc : result.success = true)
    (hsave : env.saveOk = false) :
    ∃ tx, (executeSwap cfg env s).1 = some tx ∧
      tx.status = TxStatus.completed ∧
      ((executeSwap cfg env s).2).ledger = s.ledger ++ [tx] ∧
      ((executeSwap cfg env s).2).savedFile = s.savedFile ∧
      ((executeSwap cfg env s).2).notifications =
        s.notifications ++ [("success", "Swap completed")] := by
  have h1 : (executeSwap cfg env s).1 =
      some (settledTx cfg env s B p route result) := by
    simp [executeSwap, executeSwapBody, settledTx, hrun, hbal, hB, hk, hp,
      hmin, hr, hrate, he]
  have h2 : ((executeSwap cfg env s).2).ledger =
      s.ledger ++ [settledTx cfg env s B p route result] := by
    simp [executeSwap, executeSwapBody, settledTx, hrun, hbal, hB, hk, hp,
      hmin, hr, hrate, he]
  have h3 : ((executeSwap cfg env s).2).savedFile = s.savedFile := by
    simp [executeSwap, executeSwapBody, hrun, hbal, hB, hk, hp, hmin, hr,
      hrate, he, hsave, logTransactionM_savedFile_false]
  have h4 : ((executeSwap cfg env s).2).notifications =
      s.notifications ++ [("success", "Swap completed")] := by
    simp [executeSwap, executeSwapBody, hrun, hbal, hB, hk, hp, hmin, hr,
      hrate, he]
  exact ⟨_, h1, by simp [settledTx, hsucc], h2, h3, h4⟩

/-- C7 witness: the amended statement at the demo write-failure cycle. -/
theorem ledger_write_failure_swallowed_witness :
    ∃ tx, (executeSwap demoCfg demoEnvSaveFail initState).1 = some tx ∧
      tx.status = TxStatus.completed ∧
      ((executeSwap demoCfg demoEnvSaveFail initState).2).savedFile = none ∧
      ((executeSwap demoCfg demoEnvSaveFail initState).2).notifications =
        [("success", "Swap completed")] := by
  obtain ⟨tx, h1, h2, h3, h4, h5⟩ :=
    ledger_write_failure_swallowed demoCfg demoEnvSaveFail initState
      20000000 1 demoRoute ⟨true, some "DRY_RUN_TX", some demoRoute.amountOut, []⟩
      rfl rfl (by norm_num) (by decide) (by norm_num)
      (by rw [demo_amount, demo_min]; norm_num) rfl
      (by rw [demo_amount]; simp only [demoRoute, demoCfg]; norm_num)
      (by simp [skipExecuteSwap, demoCfg]) rfl rfl
  exact ⟨tx, h1, h2, by simpa using h4, by simpa using h5⟩

end TokenSwapper
